import Mathlib

/-!
Verification of the security test engine of the Cloud-Native-API-Security-Testing
repository against its natural-language specification.

The engine lives in two TypeScript modules (the scan orchestrator with its
serialization guard, and the five security probes with their hardened HTTP
client).  This file is a shallow embedding of that code:

* JavaScript runtime values are modelled as finite trees (`JSVal`); machine
  numbers appear as `Int` (no claim under scrutiny depends on float rounding).
  Cyclic object graphs are not representable as inductive trees, so every
  theorem about `makeSerializable` speaks about acyclic values; where a claim
  mentions cycles this restriction is recorded with the claim's status.
* `JSON.stringify` is not modelled textually; only the one observable the code
  relies on is modelled: whether it throws (`stringifyThrows`).  In JavaScript
  `JSON.stringify` throws exactly on BigInt values and on cyclic structures
  (functions and `undefined` are silently dropped, which is what makes the
  serialization guard lossy); on trees the throwing condition is therefore
  "contains a BigInt".
* Network effects (axios calls), `Date.now`, regex matching and `JSON.parse`
  are platform functions, not repository code; they enter the embedding as
  explicit oracle parameters so that every repository-owned branch is modelled
  exactly and every theorem quantifies over the platform behaviour.
* Asynchronous execution: `Promise.all` deterministically returns results in
  the order of its input array, independent of completion order, so the
  orchestrator's concurrent fan-out is modelled as an order-preserving map.
-/

/-- A JavaScript runtime value, as a finite tree.  `vfun` stands for a function
value (carrying only an identifying label), `vbigint` for a BigInt — the two
kinds of leaves `JSON.stringify` treats specially: functions are dropped
silently while BigInt makes it throw. -/
inductive JSVal where
  | vnull
  | vundef
  | vbool (b : Bool)
  | vnum (n : Int)
  | vstr (s : String)
  | vfun (f : String)
  | vbigint (n : Int)
  | varr (es : List JSVal)
  | vobj (fs : List (String × JSVal))
deriving Repr

mutual

/-- Whether `JSON.stringify` raises on this value: on finite trees it raises
exactly when a BigInt leaf is reachable through arrays/objects (function-valued
fields are skipped without raising, and a BigInt cannot hide inside a function
value). -/
def stringifyThrows : JSVal → Bool
  | .vbigint _ => true
  | .varr es => stringifyThrowsList es
  | .vobj fs => stringifyThrowsFields fs
  | _ => false

def stringifyThrowsList : List JSVal → Bool
  | [] => false
  | v :: vs => stringifyThrows v || stringifyThrowsList vs

def stringifyThrowsFields : List (String × JSVal) → Bool
  | [] => false
  | (_, v) :: ps => stringifyThrows v || stringifyThrowsFields ps

end

/-- The JavaScript `String(x)` coercion, for the values that can reach the
fallback branch of `makeSerializable` (only BigInt can in practice, but the
function is total like its source). -/
def jsStringOf : JSVal → String
  | .vnull => "null"
  | .vundef => "undefined"
  | .vbool b => if b then "true" else "false"
  | .vnum n => toString n
  | .vstr s => s
  | .vfun f => f
  | .vbigint n => toString n
  | .varr _ => ""
  | .vobj _ => "[object Object]"

mutual

/-- The serialization guard `makeSerializable` of the orchestrator module,
translated branch for branch:
* `null`/`undefined` are returned at once;
* if `JSON.stringify` does not throw, the value is returned unchanged —
  including when it contains function-valued fields that stringification
  would silently drop;
* otherwise arrays map element-wise, objects rebuild key by key (the per-key
  `catch` of the source is dead code here because the recursive call itself
  never raises on a tree), and any other value is rendered with `String(...)`
  — on trees only a BigInt reaches that branch since `typeof` of a BigInt is
  not `"object"`. -/
def makeSerializable : JSVal → JSVal
  | .vnull => .vnull
  | .vundef => .vundef
  | .varr es => if stringifyThrowsList es then .varr (makeSerializableList es) else .varr es
  | .vobj fs => if stringifyThrowsFields fs then .vobj (makeSerializableFields fs) else .vobj fs
  | .vbigint n => .vstr (toString n)
  | v => v

def makeSerializableList : List JSVal → List JSVal
  | [] => []
  | v :: vs => makeSerializable v :: makeSerializableList vs

def makeSerializableFields : List (String × JSVal) → List (String × JSVal)
  | [] => []
  | (k, v) :: ps => (k, makeSerializable v) :: makeSerializableFields ps

end

mutual

/-- Leaves that JSON encoding cannot round-trip losslessly: function values and
`undefined` are silently dropped (or turned into `null` inside arrays) and
BigInt raises.  A value containing such a leaf cannot be losslessly
JSON-encoded. -/
def hasNonEncodable : JSVal → Bool
  | .vundef => true
  | .vfun _ => true
  | .vbigint _ => true
  | .varr es => hasNonEncodableList es
  | .vobj fs => hasNonEncodableFields fs
  | _ => false

def hasNonEncodableList : List JSVal → Bool
  | [] => false
  | v :: vs => hasNonEncodable v || hasNonEncodableList vs

def hasNonEncodableFields : List (String × JSVal) → Bool
  | [] => false
  | (_, v) :: ps => hasNonEncodable v || hasNonEncodableFields ps

end

mutual

theorem stringifyThrows_makeSerializable :
    ∀ v, stringifyThrows (makeSerializable v) = false
  | .vnull => rfl
  | .vundef => rfl
  | .vbool _ => rfl
  | .vnum _ => rfl
  | .vstr _ => rfl
  | .vfun _ => rfl
  | .vbigint _ => rfl
  | .varr es => by
      by_cases h : stringifyThrowsList es
      · simp [makeSerializable, h, stringifyThrows, stringifyThrowsList_makeSerializableList es]
      · simp [makeSerializable, h, stringifyThrows]
  | .vobj fs => by
      by_cases h : stringifyThrowsFields fs
      · simp [makeSerializable, h, stringifyThrows, stringifyThrowsFields_makeSerializableFields fs]
      · simp [makeSerializable, h, stringifyThrows]

theorem stringifyThrowsList_makeSerializableList :
    ∀ vs, stringifyThrowsList (makeSerializableList vs) = false
  | [] => rfl
  | v :: vs => by
      simp [makeSerializableList, stringifyThrowsList, stringifyThrows_makeSerializable v,
        stringifyThrowsList_makeSerializableList vs]

theorem stringifyThrowsFields_makeSerializableFields :
    ∀ ps, stringifyThrowsFields (makeSerializableFields ps) = false
  | [] => rfl
  | (k, v) :: ps => by
      simp [makeSerializableFields, stringifyThrowsFields, stringifyThrows_makeSerializable v,
        stringifyThrowsFields_makeSerializableFields ps]

end

/-- A value on which `JSON.stringify` does not raise is returned unchanged by
the serialization guard (the guard's fast path). -/
theorem makeSerializable_eq_self (v : JSVal) (h : stringifyThrows v = false) :
    makeSerializable v = v := by
  cases v <;> simp_all [makeSerializable, stringifyThrows]

/-- Claim C2 (counterexample): the serialization guard does not guarantee a
losslessly JSON-encodable result.  For the object `{f: <function>}` the
`JSON.stringify` probe succeeds (stringification silently drops the
function-valued field rather than raising), so `makeSerializable` returns the
object unchanged — still containing a function leaf, which JSON encoding
cannot represent; encode-then-decode loses the field.  This refutes the claim
that the result "can always be losslessly JSON-encoded" and "contains no
non-encodable leaves". -/
theorem makeSerializable_not_lossless_counterexample :
    makeSerializable (.vobj [("f", .vfun "handler")]) = .vobj [("f", .vfun "handler")]
    ∧ hasNonEncodable (.vobj [("f", .vfun "handler")]) = true :=
  ⟨rfl, rfl⟩

/-- Claim C2 (amended): for every (acyclic) value, `makeSerializable`
terminates without raising — it is a total function on value trees — and its
result can always be JSON-encoded without raising: the result contains no
BigInt leaf and, being a tree, no cycle.  The encoding need not be lossless:
an input that already JSON-encodes without raising is returned unchanged even
when it contains function-valued or `undefined` fields that the encoder
silently drops.  (Cyclic object graphs are outside the tree model; on them the
source's termination rests on the engine catching its own stack-overflow
error, not on the algorithm.) -/
theorem makeSerializable_total_output_encodes (v : JSVal) :
    stringifyThrows (makeSerializable v) = false :=
  stringifyThrows_makeSerializable v

/-- Claim C3: the serialization guard is idempotent — applying
`makeSerializable` to its own output returns that output unchanged, because
the output always passes the `JSON.stringify` probe and therefore takes the
identity fast path. -/
theorem makeSerializable_idempotent (v : JSVal) :
    makeSerializable (makeSerializable v) = makeSerializable v :=
  makeSerializable_eq_self _ (stringifyThrows_makeSerializable v)

/-- Truthiness of a JavaScript value, for the `||` defaults in the probe
client (`error.response?.data || {...}` and friends).  `NaN` is not modelled;
no value under scrutiny produces it. -/
def jsFalsy : JSVal → Bool
  | .vnull => true
  | .vundef => true
  | .vbool b => !b
  | .vnum n => n == 0
  | .vstr s => s == ""
  | .vbigint n => n == 0
  | _ => false

/-- An axios response as the probes observe it.  Response header names are
already lowercased by axios, so the probes' lowercase bracket lookups are
plain key lookups here. -/
structure AxiosResponse where
  status : Int
  statusText : String
  headers : List (String × String)
  data : JSVal

/-- Reading one entry of a JavaScript object used as a header map:
`headers[name]`, `undefined` (here `none`) when the key is absent. -/
def getHeader (hs : List (String × String)) (k : String) : Option String :=
  (hs.find? (fun p => p.1 == k)).map Prod.snd

/-- Falsiness of a header lookup (`!headers[name]` in the source): the key is
absent or its value is the empty string. -/
def optFalsy : Option String → Bool
  | none => true
  | some s => s == ""

/-- The outcome of one underlying `axios(config)` call: a response delivered
(any status code, since every probe passes `validateStatus: () => true`), an
axios-recognized transport failure (timeout, DNS, refused connection, TLS —
optionally carrying the error response axios attached), or a non-axios
exception. -/
inductive TransportResult where
  | ok (r : AxiosResponse)
  | axiosErr (resp : Option AxiosResponse) (message : String)
  | otherErr (message : String)

/-- The `{ message: <error text> }` payload the probe client substitutes for a
missing or falsy error payload. -/
def msgObj (m : String) : JSVal := .vobj [("message", .vstr m)]

/-- A header map rendered as the JavaScript object it is at runtime (all
values are strings). -/
def headersToJS (hs : List (String × String)) : JSVal :=
  .vobj (hs.map (fun p => (p.1, .vstr p.2)))

/-- `safeAxiosRequest`: returns the response for a fulfilled call; converts an
axios error into a pseudo-response (`status: error.response?.status || 500`,
`statusText || 'Error'`, sanitized headers-or-empty, sanitized
data-or-message); rethrows anything that is not an axios error.  The `||`
defaults are JavaScript truthiness, hence the `jsFalsy`/`== 0`/`== ""` tests.
The headers field keeps the `List` representation; `makeSerializable` is the
identity on header objects (`makeSerializable_headersToJS` below), so nothing
is lost by not routing it through `JSVal`. -/
def safeAxiosRequest : TransportResult → Except String AxiosResponse
  | .ok r => .ok r
  | .axiosErr resp msg => .ok {
      status := match resp with
        | some r => if r.status == 0 then 500 else r.status
        | none => 500
      statusText := match resp with
        | some r => if r.statusText == "" then "Error" else r.statusText
        | none => "Error"
      headers := match resp with
        | some r => r.headers
        | none => []
      data := makeSerializable (match resp with
        | some r => if jsFalsy r.data then msgObj msg else r.data
        | none => msgObj msg) }
  | .otherErr msg => .error msg

/-- Sanitizing a header object is the identity: all its values are strings, so
the `JSON.stringify` probe succeeds and the guard's fast path returns it
unchanged. -/
theorem makeSerializable_headersToJS (hs : List (String × String)) :
    makeSerializable (headersToJS hs) = headersToJS hs := by
  apply makeSerializable_eq_self
  show stringifyThrowsFields _ = false
  induction hs with
  | nil => rfl
  | cons p t ih => simpa [stringifyThrowsFields, stringifyThrows] using ih

/-- Claim C6: the probe client never surfaces a transport failure as an
exception.  For every axios-recognized transport failure it returns a
pseudo-response whose status is the transport's reported status when one is
available (reported statuses are genuine HTTP statuses, hence positive) and
500 otherwise, whose headers are the error-response headers or empty (their
sanitization is the identity, third conjunct), and whose data is the sanitized
error payload when one is present (and not falsy) or the sanitized
`{message: <error text>}` object otherwise. -/
theorem safeAxiosRequest_transport_failure (resp : Option AxiosResponse) (msg : String)
    (hstat : ∀ r, resp = some r → 0 < r.status) :
    ∃ out, safeAxiosRequest (.axiosErr resp msg) = .ok out
      ∧ out.status = (resp.map AxiosResponse.status).getD 500
      ∧ out.headers = (resp.map AxiosResponse.headers).getD []
      ∧ makeSerializable (headersToJS out.headers) = headersToJS out.headers
      ∧ out.data = makeSerializable
          ((resp.map (fun r => if jsFalsy r.data then msgObj msg else r.data)).getD (msgObj msg)) := by
  refine ⟨_, rfl, ?_, ?_, makeSerializable_headersToJS _, ?_⟩
  · cases resp with
    | none => rfl
    | some r =>
        have h := hstat r rfl
        have hne : (r.status == 0) = false := by
          simp only [beq_eq_false_iff_ne, ne_eq]
          omega
        simp [safeAxiosRequest, hne]
  · cases resp <;> rfl
  · cases resp <;> rfl

/-- Witness for C6: a concrete timed-out call that axios decorated with a 404
error response; the client yields a status-404 pseudo-response with the error
payload sanitized (here: unchanged). -/
theorem safeAxiosRequest_transport_failure_witness :
    ∃ out, safeAxiosRequest (.axiosErr
        (some ⟨404, "Not Found", [("content-type", "text/plain")], .vstr "missing"⟩)
        "timeout of 30000ms exceeded") = .ok out
      ∧ out.status = 404
      ∧ out.headers = [("content-type", "text/plain")]
      ∧ makeSerializable (headersToJS out.headers) = headersToJS out.headers
      ∧ out.data = makeSerializable (.vstr "missing") := by
  have h := safeAxiosRequest_transport_failure
      (some ⟨404, "Not Found", [("content-type", "text/plain")], .vstr "missing"⟩)
      "timeout of 30000ms exceeded"
      (by intro r hr; cases hr; decide)
  simpa using h

/-- The three keys the Authentication probe deletes from its header clone:
`delete strippedHeaders['Authorization' | 'x-api-key' | 'api-key']` — exact,
case-sensitive property keys. -/
def authDeletedKeys : List String := ["Authorization", "x-api-key", "api-key"]

/-- The Authentication probe's header preparation: spread-clone the caller's
header object, then delete the three exact keys.  On a header map this is a
filter that keeps every entry whose key is not one of the three literals. -/
def stripAuthHeaders (hs : List (String × String)) : List (String × String) :=
  hs.filter (fun p => !(authDeletedKeys.contains p.1))

/-- ASCII lowercasing, to express the case-insensitive matching the claim
asserts. -/
def asciiLower (s : String) : String :=
  String.mk (s.data.map (fun c =>
    if ('A' ≤ c ∧ c ≤ 'Z') then Char.ofNat (c.toNat + 32) else c))

/-- Claim C4 (counterexample): header stripping is case-sensitive, not
case-insensitive.  The caller header key `AUTHORIZATION` matches
`Authorization` case-insensitively (second conjunct), so the claim requires it
to be removed, but the probe's exact-key deletes leave the entry untouched and
the credential is sent with the "unauthenticated" request. -/
theorem stripAuthHeaders_case_sensitive_counterexample :
    stripAuthHeaders [("AUTHORIZATION", "Bearer secret")] = [("AUTHORIZATION", "Bearer secret")]
    ∧ asciiLower "AUTHORIZATION" = asciiLower "Authorization" := by
  constructor
  · rfl
  · decide

/-- Claim C4 (amended): the Authentication probe issues its request with a
header set identical to the caller's except that entries whose key is exactly
`Authorization`, `x-api-key`, or `api-key` (case-sensitively) are removed; all
other entries pass through unchanged and in order (the result is a sublist of
the input), and the caller's original headers are untouched — the probe
operates on a spread-copy, modelled here as a pure function of the input
list. -/
theorem stripAuthHeaders_exact_keys (hs : List (String × String)) :
    (∀ p : String × String,
        p ∈ stripAuthHeaders hs ↔ p ∈ hs ∧ ¬ p.1 ∈ authDeletedKeys)
    ∧ List.Sublist (stripAuthHeaders hs) hs := by
  refine ⟨fun p => ?_, List.filter_sublist hs⟩
  simp [stripAuthHeaders]

/-- Finding status. -/
inductive TestStatus where
  | passed
  | failed
  | warning
deriving DecidableEq, Repr

/-- Finding severity. -/
inductive TestSeverity where
  | low
  | medium
  | high
  | critical
deriving DecidableEq, Repr

/-- A probe finding (`TestResult` in the source): `details`/`severity` are
optional exactly where the source omits them. -/
structure TestResult where
  name : String
  status : TestStatus
  description : String
  details : Option String
  severity : Option TestSeverity
deriving DecidableEq, Repr

/-- Whether `sub` occurs as a contiguous run inside `l`. -/
def charsInfixOf (sub : List Char) : List Char → Bool
  | [] => sub.isEmpty
  | c :: rest => sub.isPrefixOf (c :: rest) || charsInfixOf sub rest

/-- JavaScript `s.includes(sub)`. -/
def jsIncludes (s sub : String) : Bool :=
  charsInfixOf sub.data s.data

/-- The Authentication probe (`auth-check`), from the point where the
stripped-header request has been handed to `safeAxiosRequest`: a 2xx without
credentials fails, 401/403 passes, anything else is an inconclusive warning;
a rethrown non-axios error is caught by the probe's own `catch`. -/
def authenticationTestRun (tr : TransportResult) : TestResult :=
  match safeAxiosRequest tr with
  | .error msg =>
      ⟨"Authentication Check", .warning, "Error occurred during authentication test",
        some msg, some .medium⟩
  | .ok resp =>
      if 200 ≤ resp.status ∧ resp.status < 300 then
        ⟨"Authentication Check", .failed, "API endpoint accessible without authentication",
          some ("Received status code " ++ toString resp.status
            ++ " without authentication headers"), some .high⟩
      else if resp.status = 401 ∨ resp.status = 403 then
        ⟨"Authentication Check", .passed, "API properly requires authentication",
          some ("Received appropriate status code " ++ toString resp.status
            ++ " when authentication was removed"), none⟩
      else
        ⟨"Authentication Check", .warning, "Unexpected response when testing authentication",
          some ("Received status code " ++ toString resp.status
            ++ " which is neither a success nor an auth error"), some .medium⟩

/-- The Sensitive-Data probe's fixed pattern table, in source order; each entry
stands for one regex of the source, identified by its `type` label. -/
def sensitivePatternTypes : List String :=
  ["email", "possible credit card", "password", "secret", "token", "key", "SSN"]

/-- The single detail line a matching pattern contributes. -/
def sensitiveLine (t : String) : String :=
  "Found possible " ++ t ++ " data in response"

/-- The Sensitive-Data probe (`sensitive-data`).  `matchCount t` is the regex
oracle: how many times the pattern labelled `t` matches the stringified,
sanitized response body; the source pushes one line per pattern whose match
list is non-empty, in table order, then classifies. -/
def sensitiveDataTestRun (tr : TransportResult) (matchCount : String → Nat) : TestResult :=
  match safeAxiosRequest tr with
  | .error msg =>
      ⟨"Sensitive Data Exposure", .warning, "Error occurred during sensitive data test",
        some msg, some .medium⟩
  | .ok _ =>
      let findings := (sensitivePatternTypes.filter (fun t => matchCount t != 0)).map sensitiveLine
      if findings.length > 0 then
        ⟨"Sensitive Data Exposure", .failed, "API may be exposing sensitive data",
          some (String.intercalate "\n" findings), some .high⟩
      else
        ⟨"Sensitive Data Exposure", .passed, "No obvious sensitive data found in response",
          none, none⟩

/-- The CORS probe (`cors-check`), from the preflight response onward,
mirroring the source's decision chain: wildcard+credentials, wildcard,
`includes('malicious-site.example.com')`, falsy Allow-Origin, echo. -/
def corsTestRun (tr : TransportResult) : TestResult :=
  match safeAxiosRequest tr with
  | .error msg =>
      ⟨"CORS Configuration", .warning, "Error occurred during CORS test",
        some msg, some .low⟩
  | .ok resp =>
      let allowOrigin := getHeader resp.headers "access-control-allow-origin"
      let allowCreds := getHeader resp.headers "access-control-allow-credentials"
      let hasWildcard := allowOrigin == some "*"
      let allowsCredentials := allowCreds == some "true"
      if hasWildcard && allowsCredentials then
        ⟨"CORS Configuration", .failed, "Insecure CORS configuration detected",
          some "API allows wildcard origin (*) with credentials, which is a security risk",
          some .high⟩
      else if hasWildcard then
        ⟨"CORS Configuration", .warning, "Permissive CORS configuration",
          some "API allows requests from any origin (*)", some .medium⟩
      else if (match allowOrigin with
          | some s => jsIncludes s "malicious-site.example.com"
          | none => false) then
        ⟨"CORS Configuration", .failed, "CORS validation issue",
          some "API accepts requests from untrusted origins", some .high⟩
      else if optFalsy allowOrigin then
        ⟨"CORS Configuration", .passed,
          "No CORS headers found or CORS is properly restricted", none, none⟩
      else
        ⟨"CORS Configuration", .passed, "CORS appears to be properly configured",
          some ("Origin: " ++ allowOrigin.getD ""), none⟩

/-- The Security-Headers probe's checklist: display name (used in the missing
list) paired with the lowercase axios lookup key, in source order. -/
def securityHeaderChecklist : List (String × String) :=
  [("Strict-Transport-Security", "strict-transport-security"),
   ("Content-Security-Policy", "content-security-policy"),
   ("X-Content-Type-Options", "x-content-type-options"),
   ("X-Frame-Options", "x-frame-options"),
   ("X-XSS-Protection", "x-xss-protection")]

/-- The Security-Headers probe (`security-headers`): count the checklist
entries whose response header is falsy; 0 missing passes, 1-2 warns, 3+
fails. -/
def securityHeadersTestRun (tr : TransportResult) : TestResult :=
  match safeAxiosRequest tr with
  | .error msg =>
      ⟨"Security Headers", .warning, "Error occurred during security headers test",
        some msg, some .low⟩
  | .ok resp =>
      let missingHeaders :=
        (securityHeaderChecklist.filter (fun p => optFalsy (getHeader resp.headers p.2))).map
          Prod.fst
      if missingHeaders.length = 0 then
        ⟨"Security Headers", .passed, "All recommended security headers are present",
          none, none⟩
      else if missingHeaders.length ≤ 2 then
        ⟨"Security Headers", .warning, "Some recommended security headers are missing",
          some ("Missing headers: " ++ String.intercalate ", " missingHeaders), some .medium⟩
      else
        ⟨"Security Headers", .failed, "Multiple important security headers are missing",
          some ("Missing headers: " ++ String.intercalate ", " missingHeaders), some .high⟩

/-- The rate-limit header names the Rate-Limiting probe looks for. -/
def rateLimitHeaderNames : List String :=
  ["x-rate-limit-limit", "x-rate-limit-remaining", "x-rate-limit-reset", "retry-after",
   "ratelimit-limit", "ratelimit-remaining", "ratelimit-reset"]

/-- `Promise.all` over the burst of `safeAxiosRequest` calls: all responses
when every promise fulfills, otherwise the rejection (the source's
`Promise.all` rejects with the first rejection to occur; rejection order is
temporal, modelled here as list order — only reachable through a rethrown
non-axios error, and irrelevant to the classification shape). -/
def collectResponses : List (Except String AxiosResponse) → Except String (List AxiosResponse)
  | [] => .ok []
  | .error m :: _ => .error m
  | .ok r :: rest =>
      match collectResponses rest with
      | .error m => .error m
      | .ok rs => .ok (r :: rs)

/-- The Rate-Limiting probe (`rate-limit`): fire the burst (the source builds
exactly 5 requests; the classification below is what the claims exercise),
then classify: any 429/503 passes, any rate-limit header passes, a fast
all-below-400 burst warns at medium, otherwise warn at low. `totalTime` is the
wall-clock oracle for the burst. -/
def rateLimitTestRun (trs : List TransportResult) (totalTime : Int) : TestResult :=
  match collectResponses (trs.map safeAxiosRequest) with
  | .error msg =>
      ⟨"Rate Limiting", .warning, "Error occurred during rate limit test",
        some msg, some .low⟩
  | .ok rs =>
      let hasRateLimitStatus := rs.any (fun r => r.status == 429 || r.status == 503)
      let hasRateLimitHeaders := rs.any (fun r =>
        rateLimitHeaderNames.any (fun h => !(optFalsy (getHeader r.headers h))))
      if hasRateLimitStatus then
        ⟨"Rate Limiting", .passed,
          "API implements rate limiting (received 429 Too Many Requests)",
          some "Rate limiting is properly enforced", none⟩
      else if hasRateLimitHeaders then
        ⟨"Rate Limiting", .passed, "API includes rate limit headers",
          some "Rate limiting appears to be implemented", none⟩
      else if decide (totalTime < 1000) && rs.all (fun r => decide (r.status < 400)) then
        ⟨"Rate Limiting", .warning, "No rate limiting detected",
          some "API processed multiple requests quickly without rate limiting", some .medium⟩
      else
        ⟨"Rate Limiting", .warning, "Rate limiting status unclear",
          some "Could not definitively determine if rate limiting is implemented", some .low⟩

theorem authenticationTestRun_name (tr : TransportResult) :
    (authenticationTestRun tr).name = "Authentication Check" := by
  unfold authenticationTestRun
  cases safeAxiosRequest tr with
  | error m => rfl
  | ok r => simp only; split_ifs <;> rfl

theorem sensitiveDataTestRun_name (tr : TransportResult) (mc : String → Nat) :
    (sensitiveDataTestRun tr mc).name = "Sensitive Data Exposure" := by
  unfold sensitiveDataTestRun
  cases safeAxiosRequest tr with
  | error m => rfl
  | ok r => simp only; split_ifs <;> rfl

theorem corsTestRun_name (tr : TransportResult) :
    (corsTestRun tr).name = "CORS Configuration" := by
  unfold corsTestRun
  cases safeAxiosRequest tr with
  | error m => rfl
  | ok r => simp only; split_ifs <;> rfl

theorem securityHeadersTestRun_name (tr : TransportResult) :
    (securityHeadersTestRun tr).name = "Security Headers" := by
  unfold securityHeadersTestRun
  cases safeAxiosRequest tr with
  | error m => rfl
  | ok r => simp only; split_ifs <;> rfl

theorem rateLimitTestRun_name (trs : List TransportResult) (totalTime : Int) :
    (rateLimitTestRun trs totalTime).name = "Rate Limiting" := by
  unfold rateLimitTestRun
  cases collectResponses (trs.map safeAxiosRequest) with
  | error m => rfl
  | ok rs => simp only; split_ifs <;> rfl

/-- Claim C8 (counterexample): the CORS probe's reflection check tests for the
substring `malicious-site.example.com`, not for the injected origin
`https://malicious-site.example.com` verbatim.  The Allow-Origin value
`malicious-site.example.com` does not contain the injected origin (second
conjunct), so under the claim's decision list it falls to the final case and
must be `passed` with the origin echoed — but the code classifies it
`failed`/`high`. -/
theorem corsTest_substring_counterexample :
    corsTestRun (.ok ⟨200, "OK",
        [("access-control-allow-origin", "malicious-site.example.com")], .vnull⟩)
      = ⟨"CORS Configuration", .failed, "CORS validation issue",
          some "API accepts requests from untrusted origins", some .high⟩
    ∧ jsIncludes "malicious-site.example.com" "https://malicious-site.example.com" = false := by
  constructor
  · decide
  · decide

/-- Claim C8 (amended): the CORS probe classifies by first-match-wins decision
order over the preflight response: Allow-Origin exactly `*` with
Allow-Credentials `true` gives failed/high; Allow-Origin exactly `*` otherwise
gives warning/medium; Allow-Origin containing the substring
`malicious-site.example.com` (the host of the injected origin, not the full
origin verbatim) gives failed/high; Allow-Origin absent or empty gives passed
with no details; any other Allow-Origin value gives passed with details
echoing that origin. -/
theorem corsTest_classification (resp : AxiosResponse) :
    (getHeader resp.headers "access-control-allow-origin" = some "*" →
      getHeader resp.headers "access-control-allow-credentials" = some "true" →
        corsTestRun (.ok resp)
          = ⟨"CORS Configuration", .failed, "Insecure CORS configuration detected",
              some "API allows wildcard origin (*) with credentials, which is a security risk",
              some .high⟩)
    ∧ (getHeader resp.headers "access-control-allow-origin" = some "*" →
        getHeader resp.headers "access-control-allow-credentials" ≠ some "true" →
          corsTestRun (.ok resp)
            = ⟨"CORS Configuration", .warning, "Permissive CORS configuration",
                some "API allows requests from any origin (*)", some .medium⟩)
    ∧ (∀ s, getHeader resp.headers "access-control-allow-origin" = some s → s ≠ "*" →
        jsIncludes s "malicious-site.example.com" = true →
          corsTestRun (.ok resp)
            = ⟨"CORS Configuration", .failed, "CORS validation issue",
                some "API accepts requests from untrusted origins", some .high⟩)
    ∧ (getHeader resp.headers "access-control-allow-origin" = none →
        corsTestRun (.ok resp)
          = ⟨"CORS Configuration", .passed,
              "No CORS headers found or CORS is properly restricted", none, none⟩)
    ∧ (getHeader resp.headers "access-control-allow-origin" = some "" →
        corsTestRun (.ok resp)
          = ⟨"CORS Configuration", .passed,
              "No CORS headers found or CORS is properly restricted", none, none⟩)
    ∧ (∀ s, getHeader resp.headers "access-control-allow-origin" = some s → s ≠ "*" →
        jsIncludes s "malicious-site.example.com" = false → s ≠ "" →
          corsTestRun (.ok resp)
            = ⟨"CORS Configuration", .passed, "CORS appears to be properly configured",
                some ("Origin: " ++ s), none⟩) := by
  refine ⟨?_, ?_, ?_, ?_, ?_, ?_⟩
  · intro h1 h2
    simp [corsTestRun, safeAxiosRequest, h1, h2]
  · intro h1 h2
    simp [corsTestRun, safeAxiosRequest, h1, h2]
  · intro s h1 h2 h3
    simp [corsTestRun, safeAxiosRequest, h1, h2, h3, optFalsy]
  · intro h1
    simp [corsTestRun, safeAxiosRequest, h1, optFalsy, jsIncludes, charsInfixOf]
  · intro h1
    simp [corsTestRun, safeAxiosRequest, h1, optFalsy, jsIncludes, charsInfixOf]
  · intro s h1 h2 h3 h4
    simp [corsTestRun, safeAxiosRequest, h1, h2, h3, h4, optFalsy]

/-- Witness for C8 (amended): the canonical severe misconfiguration — wildcard
origin together with credentials — classifies failed/high. -/
theorem corsTest_classification_witness :
    corsTestRun (.ok ⟨200, "OK",
        [("access-control-allow-origin", "*"), ("access-control-allow-credentials", "true")],
        .vnull⟩)
      = ⟨"CORS Configuration", .failed, "Insecure CORS configuration detected",
          some "API allows wildcard origin (*) with credentials, which is a security risk",
          some .high⟩ :=
  (corsTest_classification _).1 (by decide) (by decide)

/-- The seven detail lines are pairwise distinct, so a sublist of them counts
each line at most once. -/
theorem sensitiveLines_nodup : (sensitivePatternTypes.map sensitiveLine).Nodup := by
  decide

/-- Claim C9: for every response body (represented by its regex oracle
`matchCount`), the Sensitive-Data probe contributes at most one
"Found possible `<type>` data in response" line per pattern of its fixed table
regardless of how many times that pattern matches (first conjunct); if no
pattern matches it returns passed (second conjunct); if at least one matches
it returns failed with severity high and details equal to the matched lines
newline-joined in pattern-table order (third conjunct). -/
theorem sensitiveData_classification (resp : AxiosResponse) (matchCount : String → Nat) :
    (∀ t, ((sensitivePatternTypes.filter (fun u => matchCount u != 0)).map
        sensitiveLine).count (sensitiveLine t) ≤ 1)
    ∧ ((∀ t ∈ sensitivePatternTypes, matchCount t = 0) →
        sensitiveDataTestRun (.ok resp) matchCount
          = ⟨"Sensitive Data Exposure", .passed,
              "No obvious sensitive data found in response", none, none⟩)
    ∧ ((∃ t ∈ sensitivePatternTypes, matchCount t ≠ 0) →
        sensitiveDataTestRun (.ok resp) matchCount
          = ⟨"Sensitive Data Exposure", .failed, "API may be exposing sensitive data",
              some (String.intercalate "\n"
                ((sensitivePatternTypes.filter (fun u => matchCount u != 0)).map
                  sensitiveLine)),
              some .high⟩) := by
  refine ⟨?_, ?_, ?_⟩
  · intro t
    have hsub : List.Sublist
        ((sensitivePatternTypes.filter (fun u => matchCount u != 0)).map sensitiveLine)
        (sensitivePatternTypes.map sensitiveLine) :=
      (List.filter_sublist sensitivePatternTypes).map sensitiveLine
    exact List.nodup_iff_count_le_one.mp (sensitiveLines_nodup.sublist hsub) _
  · intro hz
    have hfil : sensitivePatternTypes.filter (fun u => matchCount u != 0) = [] := by
      rw [List.filter_eq_nil_iff]
      intro t ht
      simp [hz t ht]
    simp [sensitiveDataTestRun, safeAxiosRequest, hfil]
  · rintro ⟨t, ht, hne⟩
    have hfil : sensitivePatternTypes.filter (fun u => matchCount u != 0) ≠ [] := by
      intro hcon
      have := (List.filter_eq_nil_iff.mp hcon) t ht
      simp_all
    have hlen : 0 < ((sensitivePatternTypes.filter (fun u => matchCount u != 0)).map
        sensitiveLine).length := by
      simpa [List.length_pos] using hfil
    simp only [sensitiveDataTestRun, safeAxiosRequest]
    rw [if_pos (by simpa using hlen)]

/-- Witness for C9: a body on which only the password pattern matches (twice)
yields a single password line, failed/high. -/
theorem sensitiveData_classification_witness :
    sensitiveDataTestRun (.ok ⟨200, "OK", [], .vnull⟩)
        (fun t => if t = "password" then 2 else 0)
      = ⟨"Sensitive Data Exposure", .failed, "API may be exposing sensitive data",
          some "Found possible password data in response", some .high⟩ := by
  have h := (sensitiveData_classification ⟨200, "OK", [], .vnull⟩
      (fun t => if t = "password" then 2 else 0)).2.2
      ⟨"password", by decide, by decide⟩
  exact h.trans (by decide)

/-- The endpoint specification the caller submits (`ApiEndpoint` in the
source); headers are a plain string map, the body an optional raw string. -/
structure ApiEndpoint where
  url : String
  method : String
  headers : List (String × String)
  body : Option String
deriving DecidableEq, Repr

/-- A probe registry descriptor (`SecurityTest` in the source).  The source
couples the descriptor with its `run` closure; the embedding keeps the
descriptor data here and the run bodies as the `*TestRun` functions above,
re-associated by id in `probeRunModel`. -/
structure SecurityTest where
  id : String
  name : String
  description : String
deriving DecidableEq, Repr

def authenticationTest : SecurityTest :=
  ⟨"auth-check", "Authentication Check", "Checks if the API requires proper authentication"⟩

def sensitiveDataTest : SecurityTest :=
  ⟨"sensitive-data", "Sensitive Data Exposure", "Checks if the API exposes sensitive data in responses"⟩

def corsTest : SecurityTest :=
  ⟨"cors-check", "CORS Configuration", "Checks for CORS misconfiguration"⟩

def securityHeadersTest : SecurityTest :=
  ⟨"security-headers", "Security Headers", "Checks for important security headers"⟩

def rateLimitTest : SecurityTest :=
  ⟨"rate-limit", "Rate Limiting", "Checks if the API implements rate limiting"⟩

/-- The process-wide probe registry, in source order. -/
def allTests : List SecurityTest :=
  [authenticationTest, sensitiveDataTest, corsTest, securityHeadersTest, rateLimitTest]

/-- `safeJsonParse`: `JSON.parse` behind a catch that degrades a parse failure
to `null`.  `parse` is the platform `JSON.parse` oracle (`.error` = the parse
threw). -/
def safeJsonParse (parse : String → Except String JSVal) (s : String) : JSVal :=
  match parse s with
  | .ok v => v
  | .error _ => .vnull

/-- The scan report (`ScanResult` in the source).  `rawResponse` is always set
by the baseline-request phase (payload on success, `{error: message}` on
failure); `statusCode` stays unset on failure. -/
structure ScanResult where
  endpoint : ApiEndpoint
  timestamp : String
  results : List TestResult
  rawResponse : JSVal
  responseTime : Int
  statusCode : Option Int
deriving Repr

/-- Selection resolution of the orchestrator: an empty selection runs the full
registry, otherwise the registry is filtered — in registry order — to the
descriptors whose id the selection mentions (`selectedTests.includes(test.id)`). -/
def testsToRun (sel : List String) : List SecurityTest :=
  if sel.length > 0 then allTests.filter (fun t => sel.contains t.id) else allTests

/-- The orchestrator's per-probe guard: the probe's settled promise
(`probeRun t`) is taken as is when fulfilled, and a rejection is converted to
the synthetic "Test execution failed" warning finding carrying the probe's
registered name and the error text. -/
def wrapProbe (probeRun : SecurityTest → Except String TestResult)
    (t : SecurityTest) : TestResult :=
  match probeRun t with
  | .ok r => r
  | .error msg => ⟨t.name, .warning, "Test execution failed", some msg, some .medium⟩

/-- The scan orchestrator `runApiTest`, with the platform effects as explicit
oracles: `parse` is `JSON.parse` (invoked inside the baseline try-block when a
body is present), `net` the baseline axios call outcome (`.error` = axios
threw, e.g. malformed URL), `probeRun` the settled promise of each probe's
`run(endpoint)`, and `timestamp`/`responseTime` the clock readings.  The
baseline try/catch records the payload or `{error: message}` as
`rawResponse`; the probe fan-out is `Promise.all` over the selection, an
order-preserving map; the final `makeSerializable(scanResult)` of the source
is the identity here — every field of the assembled record is built from
strings, numbers and the already-sanitized `rawResponse`
(`stringifyThrows_makeSerializable`), so the stringify probe succeeds and the
guard takes its fast path. -/
def runApiTest (endpoint : ApiEndpoint) (parse : String → Except String JSVal)
    (net : Except String AxiosResponse) (sel : List String)
    (probeRun : SecurityTest → Except String TestResult)
    (timestamp : String) (responseTime : Int) : ScanResult :=
  let initial : Except String AxiosResponse :=
    match endpoint.body with
    | some b =>
        match parse b with
        | .error m => .error m
        | .ok _ => net
    | none => net
  { endpoint := endpoint
    timestamp := timestamp
    results := (testsToRun sel).map (wrapProbe probeRun)
    rawResponse :=
      match initial with
      | .ok r => makeSerializable r.data
      | .error m => .vobj [("error", .vstr m)]
    responseTime := responseTime
    statusCode :=
      match initial with
      | .ok r => some r.status
      | .error _ => none }

/-- The network/platform behaviour one scan's probes observe: one transport
outcome per single-request probe, the regex oracle for the Sensitive-Data
probe, and the burst transports plus wall-clock reading for the Rate-Limiting
probe. -/
structure ProbeNet where
  auth : TransportResult
  sens : TransportResult
  sensMatchCount : String → Nat
  cors : TransportResult
  sech : TransportResult
  rate : List TransportResult
  rateTime : Int

/-- The settled promises of the five registered probes' `run` closures,
re-associated to their descriptors by id.  Every registered probe wraps its
whole body in try/catch and returns a finding from the catch as well, so its
promise always fulfills — the orchestrator-level rejection path is exercised
separately with arbitrary `probeRun` oracles. -/
def probeRunModel (pnet : ProbeNet) (t : SecurityTest) : Except String TestResult :=
  if t.id = "auth-check" then .ok (authenticationTestRun pnet.auth)
  else if t.id = "sensitive-data" then .ok (sensitiveDataTestRun pnet.sens pnet.sensMatchCount)
  else if t.id = "cors-check" then .ok (corsTestRun pnet.cors)
  else if t.id = "security-headers" then .ok (securityHeadersTestRun pnet.sech)
  else .ok (rateLimitTestRun pnet.rate pnet.rateTime)

/-- Each registered probe's wrapped finding carries that probe's registered
name, whatever the network does. -/
theorem wrapProbe_probeRunModel_name (pnet : ProbeNet) (t : SecurityTest)
    (ht : t ∈ allTests) : (wrapProbe (probeRunModel pnet) t).name = t.name := by
  simp only [allTests, List.mem_cons, List.not_mem_nil, or_false] at ht
  rcases ht with rfl | rfl | rfl | rfl | rfl
  · simpa [wrapProbe, probeRunModel, authenticationTest] using
      authenticationTestRun_name pnet.auth
  · simpa [wrapProbe, probeRunModel, sensitiveDataTest] using
      sensitiveDataTestRun_name pnet.sens pnet.sensMatchCount
  · simpa [wrapProbe, probeRunModel, corsTest] using corsTestRun_name pnet.cors
  · simpa [wrapProbe, probeRunModel, securityHeadersTest] using
      securityHeadersTestRun_name pnet.sech
  · simpa [wrapProbe, probeRunModel, rateLimitTest] using
      rateLimitTestRun_name pnet.rate pnet.rateTime

/-- Resolved probes are registered probes. -/
theorem testsToRun_subset (sel : List String) (t : SecurityTest)
    (ht : t ∈ testsToRun sel) : t ∈ allTests := by
  unfold testsToRun at ht
  split at ht
  · exact List.mem_of_mem_filter ht
  · exact ht

/-- Filtering a duplicate-free list by membership in a duplicate-free subset
keeps exactly one element per subset member. -/
theorem length_filter_contains :
    ∀ (L S : List String), L.Nodup → S.Nodup → (∀ x ∈ S, x ∈ L) →
      (L.filter (fun a => S.contains a)).length = S.length := by
  intro L
  induction L with
  | nil =>
      intro S _ _ hsub
      cases S with
      | nil => rfl
      | cons a t => exact absurd (hsub a (by simp)) (by simp)
  | cons a L ih =>
      intro S hL hS hsub
      rw [List.nodup_cons] at hL
      by_cases ha : a ∈ S
      · have hfc : L.filter (fun x => S.contains x)
            = L.filter (fun x => (S.erase a).contains x) := by
          apply List.filter_congr
          intro x hx
          have hxa : x ≠ a := fun h => hL.1 (h ▸ hx)
          rw [Bool.eq_iff_iff]
          simp only [List.contains, List.elem_iff]
          rw [hS.mem_erase_iff]
          simp [hxa]
        have hsub2 : ∀ x ∈ S.erase a, x ∈ L := by
          intro x hx
          rw [hS.mem_erase_iff] at hx
          rcases List.mem_cons.mp (hsub x hx.2) with h | h
          · exact absurd h hx.1
          · exact h
        have hrec := ih (S.erase a) hL.2 (hS.erase a) hsub2
        have hacontains : S.contains a = true := by
          simp [List.elem_iff, ha]
        simp only [List.filter_cons, hacontains, if_true]
        rw [hfc] at *
        rw [List.length_cons, hrec, List.length_erase_of_mem ha]
        have : 0 < S.length := List.length_pos.mpr (fun h => by simp [h] at ha)
        omega
      · have hacontains : S.contains a = false := by
          simp [List.elem_iff, ha]
        have hsub2 : ∀ x ∈ S, x ∈ L := by
          intro x hx
          rcases List.mem_cons.mp (hsub x hx) with h | h
          · exact absurd (h ▸ hx) ha
          · exact h
        simp only [List.filter_cons, hacontains]
        simpa using ih S hL.2 hS hsub2

/-- The findings of a scan against the concrete probe models carry the
resolved probes' registered names, in resolution order. -/
theorem runApiTest_results_names (e : ApiEndpoint) (parse : String → Except String JSVal)
    (net : Except String AxiosResponse) (sel : List String) (pnet : ProbeNet)
    (ts : String) (rt : Int) :
    (runApiTest e parse net sel (probeRunModel pnet) ts rt).results.map TestResult.name
      = (testsToRun sel).map SecurityTest.name := by
  show ((testsToRun sel).map (wrapProbe (probeRunModel pnet))).map TestResult.name
      = (testsToRun sel).map SecurityTest.name
  rw [List.map_map]
  apply List.map_congr_left
  intro t ht
  exact wrapProbe_probeRunModel_name pnet t (testsToRun_subset sel t ht)

/-- Claim C1: for every endpoint and every selection that is a duplicate-free
subset of the five registered probe ids (empty meaning all), the scan report
carries exactly one finding per resolved probe — 5 findings for the empty
selection and `|S|` otherwise — in registry order (the `Promise.all` fan-out
preserves input order independent of completion order), and each finding's
name equals the corresponding registered probe's name; for the empty
selection the name sequence is exactly the registry's. -/
theorem runApiTest_selection_shape (e : ApiEndpoint) (parse : String → Except String JSVal)
    (net : Except String AxiosResponse) (sel : List String) (pnet : ProbeNet)
    (ts : String) (rt : Int)
    (hnd : sel.Nodup) (hsub : ∀ x ∈ sel, x ∈ allTests.map SecurityTest.id) :
    (runApiTest e parse net sel (probeRunModel pnet) ts rt).results.length
        = (if sel = [] then 5 else sel.length)
    ∧ (runApiTest e parse net sel (probeRunModel pnet) ts rt).results.map TestResult.name
        = (testsToRun sel).map SecurityTest.name
    ∧ (sel = [] →
        (runApiTest e parse net sel (probeRunModel pnet) ts rt).results.map TestResult.name
          = ["Authentication Check", "Sensitive Data Exposure", "CORS Configuration",
             "Security Headers", "Rate Limiting"]) := by
  refine ⟨?_, runApiTest_results_names e parse net sel pnet ts rt, ?_⟩
  · show ((testsToRun sel).map (wrapProbe (probeRunModel pnet))).length = _
    rw [List.length_map]
    by_cases hsel : sel = []
    · simp [hsel, testsToRun, allTests]
    · rw [if_neg hsel]
      unfold testsToRun
      rw [if_pos (List.length_pos.mpr hsel)]
      have hcount : (allTests.filter (fun t => sel.contains t.id)).length
          = ((allTests.map SecurityTest.id).filter (fun a => sel.contains a)).length := by
        rw [← List.countP_eq_length_filter, ← List.countP_eq_length_filter,
          List.countP_map]
        rfl
      rw [hcount]
      exact length_filter_contains (allTests.map SecurityTest.id) sel (by decide) hnd hsub
  · intro hsel
    rw [runApiTest_results_names e parse net sel pnet ts rt, hsel]
    decide

/-- A baseline network response used by concrete witnesses. -/
def plainOkResponse : AxiosResponse := ⟨200, "OK", [], .vnull⟩

/-- A quiet network: every probe transport fulfills with a plain 200 and the
regex oracle finds nothing. -/
def quietNet : ProbeNet :=
  ⟨.ok plainOkResponse, .ok plainOkResponse, fun _ => 0, .ok plainOkResponse,
    .ok plainOkResponse, [.ok plainOkResponse, .ok plainOkResponse, .ok plainOkResponse,
    .ok plainOkResponse, .ok plainOkResponse], 5000⟩

/-- A `JSON.parse` oracle for bodies that parse. -/
def parseOk : String → Except String JSVal := fun _ => .ok .vnull

/-- A concrete endpoint without a body. -/
def plainEndpoint : ApiEndpoint := ⟨"https://api.example.com/items", "GET", [], none⟩

/-- Witness for C1: the two-probe selection yields exactly two findings. -/
theorem runApiTest_selection_shape_witness :
    (runApiTest plainEndpoint parseOk (.ok plainOkResponse)
        ["sensitive-data", "rate-limit"] (probeRunModel quietNet)
        "2025-01-01T00:00:00.000Z" 42).results.length = 2 := by
  have h := (runApiTest_selection_shape plainEndpoint parseOk (.ok plainOkResponse)
      ["sensitive-data", "rate-limit"] quietNet "2025-01-01T00:00:00.000Z" 42
      (by decide) (by decide)).1
  exact h.trans (by decide)

/-- Claim C10: a selection list containing unregistered ids or duplicates of a
registered id raises no error; the report contains exactly one finding per
registered probe whose id occurs anywhere in the list, in registry order —
unknown ids are silently ignored, so the findings sequence can be shorter
than the selection list. -/
theorem runApiTest_unknown_and_duplicate_ids (e : ApiEndpoint)
    (parse : String → Except String JSVal) (net : Except String AxiosResponse)
    (sel : List String) (pnet : ProbeNet) (ts : String) (rt : Int)
    (hne : sel ≠ []) :
    (runApiTest e parse net sel (probeRunModel pnet) ts rt).results.map TestResult.name
        = (allTests.filter (fun t => sel.contains t.id)).map SecurityTest.name
    ∧ (runApiTest e parse net sel (probeRunModel pnet) ts rt).results.length
        = (allTests.filter (fun t => sel.contains t.id)).length := by
  have hfil : testsToRun sel = allTests.filter (fun t => sel.contains t.id) := by
    unfold testsToRun
    rw [if_pos (List.length_pos.mpr hne)]
  constructor
  · rw [runApiTest_results_names e parse net sel pnet ts rt, hfil]
  · show ((testsToRun sel).map (wrapProbe (probeRunModel pnet))).length = _
    rw [List.length_map, hfil]

/-- Witness for C10: the selection `["rate-limit", "bogus", "rate-limit"]`
(a duplicate plus an unknown id) yields exactly the one Rate Limiting finding
— one finding for the one registered id occurring in the list, fewer findings
than selection entries. -/
theorem runApiTest_unknown_and_duplicate_ids_witness :
    (runApiTest plainEndpoint parseOk (.ok plainOkResponse)
        ["rate-limit", "bogus", "rate-limit"] (probeRunModel quietNet)
        "2025-01-01T00:00:00.000Z" 42).results.map TestResult.name = ["Rate Limiting"] := by
  have h := (runApiTest_unknown_and_duplicate_ids plainEndpoint parseOk (.ok plainOkResponse)
      ["rate-limit", "bogus", "rate-limit"] quietNet "2025-01-01T00:00:00.000Z" 42
      (by decide)).1
  exact h.trans (by decide)

/-- Claim C7: if one selected probe's run rejects, the orchestrator catches it
and puts the synthetic `{warning, "Test execution failed", <error text>,
medium}` finding — under the failing probe's registered name — in that probe's
resolution position, while every other selected probe's finding is exactly
what it would have been had the probe behaved (`pr1`); the report stays
complete with one finding per resolved probe. -/
theorem runApiTest_isolates_failing_probe (e : ApiEndpoint)
    (parse : String → Except String JSVal) (net : Except String AxiosResponse)
    (sel : List String) (ts : String) (rt : Int)
    (pr1 pr2 : SecurityTest → Except String TestResult) (t0 : SecurityTest) (msg : String)
    (hfail : pr2 t0 = .error msg)
    (hagree : ∀ t, t ≠ t0 → pr2 t = pr1 t) :
    (runApiTest e parse net sel pr2 ts rt).results.length = (testsToRun sel).length
    ∧ (runApiTest e parse net sel pr2 ts rt).results
        = (testsToRun sel).map (fun t =>
            if t = t0 then
              ⟨t0.name, .warning, "Test execution failed", some msg, some .medium⟩
            else wrapProbe pr1 t) := by
  constructor
  · show ((testsToRun sel).map (wrapProbe pr2)).length = _
    rw [List.length_map]
  · show (testsToRun sel).map (wrapProbe pr2) = _
    apply List.map_congr_left
    intro t _
    by_cases ht0 : t = t0
    · subst ht0
      simp [wrapProbe, hfail]
    · rw [if_neg ht0]
      unfold wrapProbe
      rw [hagree t ht0]

/-- A probe-run oracle under which every probe fulfills with a passed
finding. -/
def probeRunAllPass : SecurityTest → Except String TestResult :=
  fun t => .ok ⟨t.name, .passed, "ok", none, none⟩

/-- The all-pass oracle with the CORS probe's promise rejecting instead. -/
def probeRunCorsFails : SecurityTest → Except String TestResult :=
  fun t => if t = corsTest then .error "boom" else probeRunAllPass t

/-- Witness for C7: with the CORS probe rejecting and the other four
fulfilling, the full-registry scan still returns five findings, the third
being the synthetic failure finding and the rest untouched. -/
theorem runApiTest_isolates_failing_probe_witness :
    (runApiTest plainEndpoint parseOk (.ok plainOkResponse) [] probeRunCorsFails
        "2025-01-01T00:00:00.000Z" 42).results
      = [⟨"Authentication Check", .passed, "ok", none, none⟩,
         ⟨"Sensitive Data Exposure", .passed, "ok", none, none⟩,
         ⟨"CORS Configuration", .warning, "Test execution failed", some "boom", some .medium⟩,
         ⟨"Security Headers", .passed, "ok", none, none⟩,
         ⟨"Rate Limiting", .passed, "ok", none, none⟩] := by
  have h := (runApiTest_isolates_failing_probe plainEndpoint parseOk (.ok plainOkResponse)
      [] "2025-01-01T00:00:00.000Z" 42 probeRunAllPass probeRunCorsFails corsTest "boom"
      (by simp [probeRunCorsFails]) (fun t ht => if_neg ht)).2
  exact h.trans (by decide)

/-- A body that is not valid JSON, and the matching `JSON.parse` oracle:
parsing it throws. -/
def badBodyEndpoint : ApiEndpoint := ⟨"https://api.example.com/items", "POST", [], some "\x7b"⟩

/-- `JSON.parse` on the truncated body `"{"` throws this error. -/
def parseFails : String → Except String JSVal :=
  fun _ => .error "Unexpected end of JSON input"

/-- Claim C5 (counterexample): an endpoint whose body is present but invalid
JSON does not make the scan raise — the baseline request's try/catch absorbs
the `JSON.parse` failure into the report.  The orchestrator returns a
complete `ScanResult` whose `rawResponse` records `{error: <parse error>}`,
whose `statusCode` is unset, and which still carries all five findings: the
construction error was absorbed into the report, not surfaced. -/
theorem runApiTest_construction_error_counterexample :
    (runApiTest badBodyEndpoint parseFails (.ok plainOkResponse) [] probeRunAllPass
        "2025-01-01T00:00:00.000Z" 42).rawResponse
      = .vobj [("error", .vstr "Unexpected end of JSON input")]
    ∧ (runApiTest badBodyEndpoint parseFails (.ok plainOkResponse) [] probeRunAllPass
        "2025-01-01T00:00:00.000Z" 42).statusCode = none
    ∧ (runApiTest badBodyEndpoint parseFails (.ok plainOkResponse) [] probeRunAllPass
        "2025-01-01T00:00:00.000Z" 42).results.length = 5 :=
  ⟨rfl, rfl, rfl⟩

/-- The outcome of the baseline request attempt, exactly the try-block of the
source: when a body is present, `JSON.parse(endpoint.body)` runs first and its
failure is the failure of the whole attempt; otherwise (and when the body
parses) the outcome is that of the axios call itself — which throws, e.g., on
a malformed URL. -/
def baselineOutcome (endpoint : ApiEndpoint) (parse : String → Except String JSVal)
    (net : Except String AxiosResponse) : Except String AxiosResponse :=
  match endpoint.body with
  | some b =>
      match parse b with
      | .error m => .error m
      | .ok _ => net
  | none => net

theorem baselineOutcome_body_none (e : ApiEndpoint) (parse : String → Except String JSVal)
    (net : Except String AxiosResponse) (h : e.body = none) :
    baselineOutcome e parse net = net := by
  unfold baselineOutcome
  rw [h]

theorem baselineOutcome_parse_error (e : ApiEndpoint) (parse : String → Except String JSVal)
    (net : Except String AxiosResponse) (b m : String) (hb : e.body = some b)
    (hp : parse b = .error m) : baselineOutcome e parse net = .error m := by
  unfold baselineOutcome
  rw [hb]
  simp [hp]

theorem baselineOutcome_parse_ok (e : ApiEndpoint) (parse : String → Except String JSVal)
    (net : Except String AxiosResponse) (b : String) (v : JSVal) (hb : e.body = some b)
    (hp : parse b = .ok v) : baselineOutcome e parse net = net := by
  unfold baselineOutcome
  rw [hb]
  simp [hp]

/-- Claim C5 (amended): a request-construction failure in the baseline request
— an invalid JSON body making `JSON.parse` throw, equally a malformed URL
making the baseline axios call itself throw — is caught inside the
orchestrator: the error message is recorded as `rawResponse = {error:
<message>}`, `statusCode` stays unset, and the scan proceeds to a complete
report with one finding per resolved probe; the probes themselves parse the
body with `safeJsonParse`, which yields `null` for an unparsable body instead
of raising.  No caller-visible error is raised.  The hypothesis covers every
failure of the baseline try-block: both its disjuncts (parse failure, axios
failure) are exercised — the axios one by the witness below, the parse one by
the counterexample above. -/
theorem runApiTest_absorbs_construction_errors (e : ApiEndpoint)
    (parse : String → Except String JSVal) (net : Except String AxiosResponse)
    (sel : List String) (probeRun : SecurityTest → Except String TestResult)
    (ts : String) (rt : Int) (m : String)
    (hfail : baselineOutcome e parse net = .error m) :
    (runApiTest e parse net sel probeRun ts rt).rawResponse = .vobj [("error", .vstr m)]
    ∧ (runApiTest e parse net sel probeRun ts rt).statusCode = none
    ∧ (runApiTest e parse net sel probeRun ts rt).results.length = (testsToRun sel).length
    ∧ (∀ b m2, e.body = some b → parse b = .error m2 → safeJsonParse parse b = .vnull) := by
  have hlen : (runApiTest e parse net sel probeRun ts rt).results.length
      = (testsToRun sel).length := by
    show ((testsToRun sel).map (wrapProbe probeRun)).length = _
    rw [List.length_map]
  have hsjp : ∀ b m2, e.body = some b → parse b = .error m2 →
      safeJsonParse parse b = .vnull := by
    intro b m2 _ hp
    simp [safeJsonParse, hp]
  have hmain : (runApiTest e parse net sel probeRun ts rt).rawResponse
        = .vobj [("error", .vstr m)]
      ∧ (runApiTest e parse net sel probeRun ts rt).statusCode = none := by
    rcases hbody : e.body with _ | b
    · rw [baselineOutcome_body_none e parse net hbody] at hfail
      constructor <;> simp [runApiTest, hbody, hfail]
    · rcases hp : parse b with m2 | v
      · have h2 := (baselineOutcome_parse_error e parse net b m2 hbody hp).symm.trans hfail
        have hm : m2 = m := by injection h2
        subst hm
        constructor <;> simp [runApiTest, hbody, hp]
      · rw [baselineOutcome_parse_ok e parse net b v hbody hp] at hfail
        constructor <;> simp [runApiTest, hbody, hp, hfail]
  exact ⟨hmain.1, hmain.2, hlen, hsjp⟩

/-- An endpoint whose URL axios rejects outright (no body, so the baseline
failure is the axios throw itself). -/
def malformedUrlEndpoint : ApiEndpoint := ⟨"ht!tp://bad url", "GET", [], none⟩

/-- Witness for C5 (amended): a malformed URL makes the baseline axios call
throw; the scan still returns the complete report, with the construction
error absorbed as `rawResponse` and `statusCode` unset. -/
theorem runApiTest_absorbs_construction_errors_witness :
    (runApiTest malformedUrlEndpoint parseOk (.error "Invalid URL") [] probeRunAllPass
        "2025-01-01T00:00:00.000Z" 42).rawResponse = .vobj [("error", .vstr "Invalid URL")]
    ∧ (runApiTest malformedUrlEndpoint parseOk (.error "Invalid URL") [] probeRunAllPass
        "2025-01-01T00:00:00.000Z" 42).statusCode = none
    ∧ (runApiTest malformedUrlEndpoint parseOk (.error "Invalid URL") [] probeRunAllPass
        "2025-01-01T00:00:00.000Z" 42).results.length = (testsToRun []).length :=
  ⟨(runApiTest_absorbs_construction_errors malformedUrlEndpoint parseOk (.error "Invalid URL")
      [] probeRunAllPass "2025-01-01T00:00:00.000Z" 42 "Invalid URL" rfl).1,
   (runApiTest_absorbs_construction_errors malformedUrlEndpoint parseOk (.error "Invalid URL")
      [] probeRunAllPass "2025-01-01T00:00:00.000Z" 42 "Invalid URL" rfl).2.1,
   (runApiTest_absorbs_construction_errors malformedUrlEndpoint parseOk (.error "Invalid URL")
      [] probeRunAllPass "2025-01-01T00:00:00.000Z" 42 "Invalid URL" rfl).2.2.1⟩
